import Mathlib

/-!
Shallow embedding of `src/config/config.go` from the repository
`ibmcloud-volume-interface` (package `config`): a configuration loader that
resolves a file path from the process environment, decodes a TOML file into a
typed record, and overlays environment variables onto the same record.

The functions of `config.go` (`getEnv`, `GetGoPath`, `GetEtcPath`,
`GetDefaultConfPath`, `GetConfPath`, `ReadConfig`, `ParseConfig`) are embedded
one to one.  The two third-party libraries the file calls —
`github.com/BurntSushi/toml` (`toml.DecodeFile`) and
`github.com/kelseyhightower/envconfig` (`envconfig.Process`) — are not part of
this repository; their observable behaviour through this code is modelled from
the specification's description of the two passes (decode the file's keys into
the tagged fields, then, for every field carrying an `envconfig` tag whose
variable is set, parse the variable's value to the field's type and overwrite
the field).  The struct tags that drive both passes are taken verbatim from the
struct declarations in `config.go`.
-/

set_option autoImplicit false

namespace ConfigGo

/-- Process environment: maps variable names (as looked up, i.e. uppercase)
to their values; `none` means the variable is unset. -/
abbrev Env : Type := String → Option String

/-- ASCII uppercase of a character, as `strings.ToUpper` acts on the ASCII
keys used in `config.go`. -/
def upperChar (c : Char) : Char :=
  if 97 ≤ c.toNat ∧ c.toNat ≤ 122 then Char.ofNat (c.toNat - 32) else c

/-- ASCII uppercase of a string (all keys passed to `getEnv` in `config.go`
are ASCII). -/
def upperString (s : String) : String :=
  String.mk (s.data.map upperChar)

/-- Embedding of `getEnv` (config.go lines 30-32): uppercase the key and read
the environment; Go's `os.Getenv` returns the empty string for an unset
variable. -/
def getEnv (env : Env) (key : String) : String :=
  (env (upperString key)).getD ""

/-- Embedding of `GetGoPath` (config.go lines 35-40). -/
def GetGoPath (env : Env) : String :=
  if getEnv env "GOPATH" ≠ "" then getEnv env "GOPATH" else ""

/-- Model of Go `filepath.Join`: empty components are dropped and the
remaining ones are joined with the separator.  Go additionally runs
`filepath.Clean` on the joined string; `Clean` is the identity on the
already-clean component lists that arise in this development, and is omitted. -/
def filepathJoin (parts : List String) : String :=
  String.intercalate "/" (parts.filter (fun s => s ≠ ""))

/-- Embedding of `GetEtcPath` (config.go lines 199-204). -/
def GetEtcPath (env : Env) : String :=
  let goPath := GetGoPath env
  let srcPath := filepathJoin ["src", "github.com", "IBM", "ibmcloud-volume-interface"]
  filepathJoin [goPath, srcPath, "etc"]

/-- Embedding of `GetDefaultConfPath` (config.go lines 87-89). -/
def GetDefaultConfPath (env : Env) : String :=
  filepathJoin [GetEtcPath env, "libconfig.toml"]

/-- Embedding of `GetConfPath` (config.go lines 69-75). -/
def GetConfPath (env : Env) : String :=
  if getEnv env "SECRET_CONFIG_PATH" ≠ "" then
    filepathJoin [getEnv env "SECRET_CONFIG_PATH", "libconfig.toml"]
  else
    GetDefaultConfPath env

/-- Embedding of `GetConfPathDir` (config.go lines 78-84). -/
def GetConfPathDir (env : Env) : String :=
  if getEnv env "SECRET_CONFIG_PATH" ≠ "" then
    getEnv env "SECRET_CONFIG_PATH"
  else
    GetEtcPath env

/-- Error universe for `ParseConfig`: in Go both passes return a generic
`error`; here the file-decode pass and the environment-overlay pass produce
distinguishable values so that claims about which error is returned are
statable.  `decodeErr` carries the message of `toml.DecodeFile`, `overlayErr`
the name of the environment variable `envconfig.Process` failed to convert. -/
inductive ConfErr where
  | decodeErr (msg : String)
  | overlayErr (envVar : String)
deriving Repr, DecidableEq

/-- Embedding of `ServerConfig` (config.go lines 106-109). -/
structure ServerConfig where
  DebugTrace : Bool
deriving Repr, DecidableEq

/-- Zero value of `ServerConfig`. -/
def ServerConfig.zero : ServerConfig := ⟨false⟩

/-- Embedding of `BluemixConfig` (config.go lines 112-122). -/
structure BluemixConfig where
  IamURL : String
  IamClientID : String
  IamClientSecret : String
  IamAPIKey : String
  RefreshToken : String
  APIEndpointURL : String
  PrivateAPIRoute : String
  Encryption : Bool
  CSRFToken : String
deriving Repr, DecidableEq

/-- Zero value of `BluemixConfig`. -/
def BluemixConfig.zero : BluemixConfig := ⟨"", "", "", "", "", "", "", false, ""⟩

/-- Embedding of `SoftlayerConfig` (config.go lines 125-145); Go `int` fields
are embedded as `Int` (no claim depends on 64-bit wraparound). -/
structure SoftlayerConfig where
  SoftlayerBlockEnabled : Bool
  SoftlayerBlockProviderName : String
  SoftlayerFileEnabled : Bool
  SoftlayerFileProviderName : String
  SoftlayerUsername : String
  SoftlayerAPIKey : String
  SoftlayerEndpointURL : String
  SoftlayerDataCenter : String
  SoftlayerTimeout : String
  SoftlayerVolProvisionTimeout : String
  SoftlayerRetryInterval : String
  SoftlayerJWTKID : String
  SoftlayerJWTTTL : Int
  SoftlayerJWTValidFrom : Int
  SoftlayerIMSEndpointURL : String
  SoftlayerAPIDebug : Bool
deriving Repr, DecidableEq

/-- Zero value of `SoftlayerConfig`. -/
def SoftlayerConfig.zero : SoftlayerConfig :=
  ⟨false, "", false, "", "", "", "", "", "", "", "", "", 0, 0, "", false⟩

/-- Embedding of `VPCProviderConfig` (config.go lines 148-185). -/
structure VPCProviderConfig where
  Enabled : Bool
  IamClientID : String
  IamClientSecret : String
  VPCTypeEnabled : String
  VPCBlockProviderType : String
  VPCProviderType : String
  EndpointURL : String
  PrivateEndpointURL : String
  TokenExchangeURL : String
  APIKey : String
  ResourceGroupID : String
  VPCAPIGeneration : Int
  APIVersion : String
  G2EndpointURL : String
  G2EndpointPrivateURL : String
  G2TokenExchangeURL : String
  G2APIKey : String
  G2ResourceGroupID : String
  G2VPCAPIGeneration : Int
  G2APIVersion : String
  Encryption : Bool
  VPCTimeout : String
  MaxRetryAttempt : Int
  MaxRetryGap : Int
  IKSTokenExchangePrivateURL : String
  IsIKS : Bool
deriving Repr, DecidableEq

/-- Zero value of `VPCProviderConfig`. -/
def VPCProviderConfig.zero : VPCProviderConfig :=
  ⟨false, "", "", "", "", "", "", "", "", "", "", 0, "", "", "", "", "", "", 0, "",
   false, "", 0, 0, "", false⟩

/-- Embedding of `IKSConfig` (config.go lines 188-191). -/
structure IKSConfig where
  Enabled : Bool
  IKSBlockProviderName : String
deriving Repr, DecidableEq

/-- Zero value of `IKSConfig`. -/
def IKSConfig.zero : IKSConfig := ⟨false, ""⟩

/-- Embedding of `APIConfig` (config.go lines 194-196). -/
structure APIConfig where
  PassthroughSecret : String
deriving Repr, DecidableEq

/-- Zero value of `APIConfig`. -/
def APIConfig.zero : APIConfig := ⟨""⟩

/-- Embedding of `Config` (config.go lines 43-50): each sub-record is a Go
pointer, embedded as `Option` (`none` is the nil pointer). -/
structure Config where
  Server : Option ServerConfig
  Bluemix : Option BluemixConfig
  Softlayer : Option SoftlayerConfig
  VPC : Option VPCProviderConfig
  IKS : Option IKSConfig
  API : Option APIConfig
deriving Repr, DecidableEq

/-- Zero value of `Config`: every sub-record pointer nil. -/
def Config.zero : Config := ⟨none, none, none, none, none, none⟩

/-- Initial record built by `ReadConfig` (config.go lines 60-62):
`Config { IKS: &IKSConfig {} }` — all pointers nil except the pre-allocated
empty IKS sub-record. -/
def initialConfig : Config :=
  { Config.zero with IKS := some IKSConfig.zero }

/-!
Model of the file-decode pass.  `toml.DecodeFile` (third-party, not part of
this repository) decodes the file's sections and keys into the destination
record: a key present in the file overwrites the corresponding field (per the
`toml:"..."` tags of config.go), a key absent from the file leaves the field
untouched, and a section absent from the file leaves the sub-record pointer
untouched (in particular the pre-allocated IKS record survives).  A parsed
file is therefore a per-section, per-key partial assignment.
-/

/-- Keys of a `[Server]` TOML section (tags at config.go lines 106-109). -/
structure ServerToml where
  debug_trace : Option Bool
deriving Repr, DecidableEq

/-- Application of a decoded `[Server]` section to a `ServerConfig`. -/
def ServerToml.applyTo (t : ServerToml) (c : ServerConfig) : ServerConfig :=
  { DebugTrace := t.debug_trace.getD c.DebugTrace }

/-- Empty `[Server]` section: no key present. -/
def ServerToml.empty : ServerToml := ⟨none⟩

/-- Keys of a `[Bluemix]` TOML section (tags at config.go lines 112-122). -/
structure BluemixToml where
  iam_url : Option String
  iam_client_id : Option String
  iam_client_secret : Option String
  iam_api_key : Option String
  refresh_token : Option String
  containers_api_route : Option String
  containers_api_route_private : Option String
  encryption : Option Bool
  containers_api_csrf_token : Option String
deriving Repr, DecidableEq

/-- Application of a decoded `[Bluemix]` section to a `BluemixConfig`. -/
def BluemixToml.applyTo (t : BluemixToml) (c : BluemixConfig) : BluemixConfig :=
  { IamURL := t.iam_url.getD c.IamURL
    IamClientID := t.iam_client_id.getD c.IamClientID
    IamClientSecret := t.iam_client_secret.getD c.IamClientSecret
    IamAPIKey := t.iam_api_key.getD c.IamAPIKey
    RefreshToken := t.refresh_token.getD c.RefreshToken
    APIEndpointURL := t.containers_api_route.getD c.APIEndpointURL
    PrivateAPIRoute := t.containers_api_route_private.getD c.PrivateAPIRoute
    Encryption := t.encryption.getD c.Encryption
    CSRFToken := t.containers_api_csrf_token.getD c.CSRFToken }

/-- Empty `[Bluemix]` section. -/
def BluemixToml.empty : BluemixToml :=
  ⟨none, none, none, none, none, none, none, none, none⟩

/-- Keys of a `[Softlayer]` TOML section (tags at config.go lines 125-145;
`SoftlayerAPIDebug` has no tag, so its key is the field name). -/
structure SoftlayerToml where
  softlayer_block_enabled : Option Bool
  softlayer_block_provider_name : Option String
  softlayer_file_enabled : Option Bool
  softlayer_file_provider_name : Option String
  softlayer_username : Option String
  softlayer_api_key : Option String
  softlayer_endpoint_url : Option String
  softlayer_datacenter : Option String
  softlayer_api_timeout : Option String
  softlayer_vol_provision_timeout : Option String
  softlayer_api_retry_interval : Option String
  softlayer_jwt_kid : Option String
  softlayer_jwt_ttl : Option Int
  softlayer_jwt_valid : Option Int
  softlayer_iam_endpoint_url : Option String
  SoftlayerAPIDebug : Option Bool
deriving Repr, DecidableEq

/-- Application of a decoded `[Softlayer]` section to a `SoftlayerConfig`. -/
def SoftlayerToml.applyTo (t : SoftlayerToml) (c : SoftlayerConfig) : SoftlayerConfig :=
  { SoftlayerBlockEnabled := t.softlayer_block_enabled.getD c.SoftlayerBlockEnabled
    SoftlayerBlockProviderName := t.softlayer_block_provider_name.getD c.SoftlayerBlockProviderName
    SoftlayerFileEnabled := t.softlayer_file_enabled.getD c.SoftlayerFileEnabled
    SoftlayerFileProviderName := t.softlayer_file_provider_name.getD c.SoftlayerFileProviderName
    SoftlayerUsername := t.softlayer_username.getD c.SoftlayerUsername
    SoftlayerAPIKey := t.softlayer_api_key.getD c.SoftlayerAPIKey
    SoftlayerEndpointURL := t.softlayer_endpoint_url.getD c.SoftlayerEndpointURL
    SoftlayerDataCenter := t.softlayer_datacenter.getD c.SoftlayerDataCenter
    SoftlayerTimeout := t.softlayer_api_timeout.getD c.SoftlayerTimeout
    SoftlayerVolProvisionTimeout := t.softlayer_vol_provision_timeout.getD c.SoftlayerVolProvisionTimeout
    SoftlayerRetryInterval := t.softlayer_api_retry_interval.getD c.SoftlayerRetryInterval
    SoftlayerJWTKID := t.softlayer_jwt_kid.getD c.SoftlayerJWTKID
    SoftlayerJWTTTL := t.softlayer_jwt_ttl.getD c.SoftlayerJWTTTL
    SoftlayerJWTValidFrom := t.softlayer_jwt_valid.getD c.SoftlayerJWTValidFrom
    SoftlayerIMSEndpointURL := t.softlayer_iam_endpoint_url.getD c.SoftlayerIMSEndpointURL
    SoftlayerAPIDebug := t.SoftlayerAPIDebug.getD c.SoftlayerAPIDebug }

/-- Empty `[Softlayer]` section. -/
def SoftlayerToml.empty : SoftlayerToml :=
  ⟨none, none, none, none, none, none, none, none, none, none, none, none, none,
   none, none, none⟩

/-- Keys of a `[VPC]` TOML section (tags at config.go lines 148-185). -/
structure VPCToml where
  vpc_enabled : Option Bool
  iam_client_id : Option String
  iam_client_secret : Option String
  vpc_type_enabled : Option String
  provider_type : Option String
  vpc_provider_type : Option String
  gc_riaas_endpoint_url : Option String
  gc_riaas_endpoint_private_url : Option String
  gc_token_exchange_endpoint_url : Option String
  gc_api_key : Option String
  gc_resource_group_id : Option String
  vpc_api_generation : Option Int
  api_version : Option String
  g2_riaas_endpoint_url : Option String
  g2_riaas_endpoint_private_url : Option String
  g2_token_exchange_endpoint_url : Option String
  g2_api_key : Option String
  g2_resource_group_id : Option String
  g2_vpc_api_generation : Option Int
  g2_api_version : Option String
  encryption : Option Bool
  vpc_api_timeout : Option String
  max_retry_attempt : Option Int
  max_retry_gap : Option Int
  iks_token_exchange_endpoint_private_url : Option String
  is_iks : Option Bool
deriving Repr, DecidableEq

/-- Application of a decoded `[VPC]` section to a `VPCProviderConfig`. -/
def VPCToml.applyTo (t : VPCToml) (c : VPCProviderConfig) : VPCProviderConfig :=
  { Enabled := t.vpc_enabled.getD c.Enabled
    IamClientID := t.iam_client_id.getD c.IamClientID
    IamClientSecret := t.iam_client_secret.getD c.IamClientSecret
    VPCTypeEnabled := t.vpc_type_enabled.getD c.VPCTypeEnabled
    VPCBlockProviderType := t.provider_type.getD c.VPCBlockProviderType
    VPCProviderType := t.vpc_provider_type.getD c.VPCProviderType
    EndpointURL := t.gc_riaas_endpoint_url.getD c.EndpointURL
    PrivateEndpointURL := t.gc_riaas_endpoint_private_url.getD c.PrivateEndpointURL
    TokenExchangeURL := t.gc_token_exchange_endpoint_url.getD c.TokenExchangeURL
    APIKey := t.gc_api_key.getD c.APIKey
    ResourceGroupID := t.gc_resource_group_id.getD c.ResourceGroupID
    VPCAPIGeneration := t.vpc_api_generation.getD c.VPCAPIGeneration
    APIVersion := t.api_version.getD c.APIVersion
    G2EndpointURL := t.g2_riaas_endpoint_url.getD c.G2EndpointURL
    G2EndpointPrivateURL := t.g2_riaas_endpoint_private_url.getD c.G2EndpointPrivateURL
    G2TokenExchangeURL := t.g2_token_exchange_endpoint_url.getD c.G2TokenExchangeURL
    G2APIKey := t.g2_api_key.getD c.G2APIKey
    G2ResourceGroupID := t.g2_resource_group_id.getD c.G2ResourceGroupID
    G2VPCAPIGeneration := t.g2_vpc_api_generation.getD c.G2VPCAPIGeneration
    G2APIVersion := t.g2_api_version.getD c.G2APIVersion
    Encryption := t.encryption.getD c.Encryption
    VPCTimeout := t.vpc_api_timeout.getD c.VPCTimeout
    MaxRetryAttempt := t.max_retry_attempt.getD c.MaxRetryAttempt
    MaxRetryGap := t.max_retry_gap.getD c.MaxRetryGap
    IKSTokenExchangePrivateURL := t.iks_token_exchange_endpoint_private_url.getD c.IKSTokenExchangePrivateURL
    IsIKS := t.is_iks.getD c.IsIKS }

/-- Empty `[VPC]` section. -/
def VPCToml.empty : VPCToml :=
  ⟨none, none, none, none, none, none, none, none, none, none, none, none, none,
   none, none, none, none, none, none, none, none, none, none, none, none, none⟩

/-- Keys of an `[IKS]` TOML section (tags at config.go lines 188-191). -/
structure IKSToml where
  iks_enabled : Option Bool
  iks_block_provider_name : Option String
deriving Repr, DecidableEq

/-- Application of a decoded `[IKS]` section to an `IKSConfig`. -/
def IKSToml.applyTo (t : IKSToml) (c : IKSConfig) : IKSConfig :=
  { Enabled := t.iks_enabled.getD c.Enabled
    IKSBlockProviderName := t.iks_block_provider_name.getD c.IKSBlockProviderName }

/-- Empty `[IKS]` section. -/
def IKSToml.empty : IKSToml := ⟨none, none⟩

/-- Keys of an `[API]` TOML section (tags at config.go lines 194-196). -/
structure APIToml where
  PassthroughSecret : Option String
deriving Repr, DecidableEq

/-- Application of a decoded `[API]` section to an `APIConfig`. -/
def APIToml.applyTo (t : APIToml) (c : APIConfig) : APIConfig :=
  { PassthroughSecret := t.PassthroughSecret.getD c.PassthroughSecret }

/-- Empty `[API]` section. -/
def APIToml.empty : APIToml := ⟨none⟩

/-- Parsed TOML file: per-section partial assignments; `none` means the
section does not occur in the file. -/
structure TomlData where
  Server : Option ServerToml
  Bluemix : Option BluemixToml
  Softlayer : Option SoftlayerToml
  VPC : Option VPCToml
  IKS : Option IKSToml
  API : Option APIToml
deriving Repr, DecidableEq

/-- Empty parsed file: no section present (also the assignment performed by a
failed decode of a nonexistent file, which touches nothing). -/
def TomlData.empty : TomlData := ⟨none, none, none, none, none, none⟩

/-- Application of a parsed file to a `Config`: a present section is decoded
into the existing sub-record (allocating a zero one if the pointer is nil), an
absent section leaves the sub-record pointer untouched. -/
def TomlData.applyTo (t : TomlData) (c : Config) : Config :=
  { Server :=
      match t.Server with
      | none => c.Server
      | some ts => some (ts.applyTo (c.Server.getD ServerConfig.zero))
    Bluemix :=
      match t.Bluemix with
      | none => c.Bluemix
      | some tb => some (tb.applyTo (c.Bluemix.getD BluemixConfig.zero))
    Softlayer :=
      match t.Softlayer with
      | none => c.Softlayer
      | some tsl => some (tsl.applyTo (c.Softlayer.getD SoftlayerConfig.zero))
    VPC :=
      match t.VPC with
      | none => c.VPC
      | some tv => some (tv.applyTo (c.VPC.getD VPCProviderConfig.zero))
    IKS :=
      match t.IKS with
      | none => c.IKS
      | some ti => some (ti.applyTo (c.IKS.getD IKSConfig.zero))
    API :=
      match t.API with
      | none => c.API
      | some ta => some (ta.applyTo (c.API.getD APIConfig.zero)) }

/-- Filesystem as seen through `toml.DecodeFile`: for every path, the
assignment the decode performs on the destination record together with an
optional error message (`some` for a missing, unreadable or malformed file;
such a decode may still have applied a partial assignment before failing).
A nonexistent path maps to `⟨TomlData.empty, some msg⟩`. -/
structure DecodeOutcome where
  data : TomlData
  errMsg : Option String
deriving Repr, DecidableEq

/-- Filesystem model: what `toml.DecodeFile` does at each path. -/
abbrev FS : Type := String → DecodeOutcome

/-- Model of `toml.DecodeFile fs path conf` (the call at config.go line 93):
applies the file's assignment to the record and reports the decode error. -/
def decodeFile (fs : FS) (filePath : String) (conf : Config) : Config × Option ConfErr :=
  ((fs filePath).data.applyTo conf, (fs filePath).errMsg.map ConfErr.decodeErr)

/-!
Model of the environment-overlay pass.  `envconfig.Process ""` (third-party,
not part of this repository) is modelled from the specification's description:
for every field carrying an `envconfig:"..."` tag (the tags are taken verbatim
from config.go), if that variable is set in the process environment, parse its
value to the field's type and overwrite the field — allocating the enclosing
sub-record at its zero value when its pointer is nil; a set variable whose
value cannot be converted to the field's type is an overlay error, reported
for the first offending field in struct-declaration order, with the
assignments made before the failure kept.
-/

/-- Model of Go `strconv.ParseBool`: exactly these literals convert. -/
def parseBool (s : String) : Option Bool :=
  if s = "1" ∨ s = "t" ∨ s = "T" ∨ s = "TRUE" ∨ s = "true" ∨ s = "True" then
    some true
  else if s = "0" ∨ s = "f" ∨ s = "F" ∨ s = "FALSE" ∨ s = "false" ∨ s = "False" then
    some false
  else
    none

/-- Digit-string to number: `some` exactly when the list is nonempty and all
decimal digits. -/
def digitsToNat (ds : List Char) : Option Nat :=
  if ds ≠ [] ∧ ds.all Char.isDigit then
    some (ds.foldl (fun n c => 10 * n + (c.toNat - 48)) 0)
  else
    none

/-- Model of Go `strconv.Atoi`: optional sign then decimal digits (the 64-bit
range error is not modelled; no claim depends on it). -/
def parseInt (s : String) : Option Int :=
  match s.data with
  | '+' :: ds => (digitsToNat ds).map (fun n => (n : Int))
  | '-' :: ds => (digitsToNat ds).map (fun n => -(n : Int))
  | ds => (digitsToNat ds).map (fun n => (n : Int))

/-- Overlay of one Bool-typed field tagged `envconfig:"key"` onto an optional
sub-record: unset variable skips, convertible value overwrites (allocating the
record at `zero` if nil), inconvertible value is an overlay error. -/
def ovBool {R : Type} (env : Env) (key : String) (zero : R) (put : R → Bool → R)
    (cur : Option R) : Option R × Option ConfErr :=
  match env key with
  | none => (cur, none)
  | some v =>
    match parseBool v with
    | some b => (some (put (cur.getD zero) b), none)
    | none => (cur, some (ConfErr.overlayErr key))

/-- Overlay of one Int-typed tagged field (conversion via `strconv.Atoi`). -/
def ovInt {R : Type} (env : Env) (key : String) (zero : R) (put : R → Int → R)
    (cur : Option R) : Option R × Option ConfErr :=
  match env key with
  | none => (cur, none)
  | some v =>
    match parseInt v with
    | some n => (some (put (cur.getD zero) n), none)
    | none => (cur, some (ConfErr.overlayErr key))

/-- Overlay of one String-typed tagged field (conversion never fails). -/
def ovStr {R : Type} (env : Env) (key : String) (zero : R) (put : R → String → R)
    (cur : Option R) : Option R × Option ConfErr :=
  match env key with
  | none => (cur, none)
  | some v => (some (put (cur.getD zero) v), none)

/-- Sequencing of overlay steps: stop at the first conversion error, keeping
the assignments already applied. -/
def ovSeq {R : Type} (step : Option R × Option ConfErr)
    (k : Option R → Option R × Option ConfErr) : Option R × Option ConfErr :=
  match step with
  | (c, some e) => (c, some e)
  | (c, none) => k c

/-- Overlay pass over `ServerConfig` (tag at config.go line 108). -/
def overlayServer (env : Env) (c : Option ServerConfig) :
    Option ServerConfig × Option ConfErr :=
  ovBool env "DEBUG_TRACE" ServerConfig.zero
    (fun r b => { r with DebugTrace := b }) c

/-- Overlay pass over `SoftlayerConfig` (tags at config.go lines 126-136), in
field-declaration order. -/
def overlaySoftlayer (env : Env) (c : Option SoftlayerConfig) :
    Option SoftlayerConfig × Option ConfErr :=
  ovSeq (ovBool env "SOFTLAYER_BLOCK_ENABLED" SoftlayerConfig.zero
      (fun r b => { r with SoftlayerBlockEnabled := b }) c) (fun c =>
  ovSeq (ovStr env "SOFTLAYER_BLOCK_PROVIDER_NAME" SoftlayerConfig.zero
      (fun r v => { r with SoftlayerBlockProviderName := v }) c) (fun c =>
  ovSeq (ovBool env "SOFTLAYER_FILE_ENABLED" SoftlayerConfig.zero
      (fun r b => { r with SoftlayerFileEnabled := b }) c) (fun c =>
  ovSeq (ovStr env "SOFTLAYER_FILE_PROVIDER_NAME" SoftlayerConfig.zero
      (fun r v => { r with SoftlayerFileProviderName := v }) c) (fun c =>
  ovSeq (ovStr env "SOFTLAYER_API_TIMEOUT" SoftlayerConfig.zero
      (fun r v => { r with SoftlayerTimeout := v }) c) (fun c =>
  ovSeq (ovStr env "SOFTLAYER_VOL_PROVISION_TIMEOUT" SoftlayerConfig.zero
      (fun r v => { r with SoftlayerVolProvisionTimeout := v }) c) (fun c =>
  ovStr env "SOFTLAYER_API_RETRY_INTERVAL" SoftlayerConfig.zero
      (fun r v => { r with SoftlayerRetryInterval := v }) c))))))

/-- Overlay pass over `VPCProviderConfig` (tags at config.go lines 149-180),
in field-declaration order. -/
def overlayVPC (env : Env) (c : Option VPCProviderConfig) :
    Option VPCProviderConfig × Option ConfErr :=
  ovSeq (ovBool env "VPC_ENABLED" VPCProviderConfig.zero
      (fun r b => { r with Enabled := b }) c) (fun c =>
  ovSeq (ovStr env "VPC_TYPE_ENABLED" VPCProviderConfig.zero
      (fun r v => { r with VPCTypeEnabled := v }) c) (fun c =>
  ovSeq (ovInt env "VPC_API_GENERATION" VPCProviderConfig.zero
      (fun r n => { r with VPCAPIGeneration := n }) c) (fun c =>
  ovSeq (ovStr env "VPC_API_VERSION" VPCProviderConfig.zero
      (fun r v => { r with APIVersion := v }) c) (fun c =>
  ovSeq (ovInt env "G2_VPC_API_GENERATION" VPCProviderConfig.zero
      (fun r n => { r with G2VPCAPIGeneration := n }) c) (fun c =>
  ovSeq (ovStr env "G2_VPC_API_VERSION" VPCProviderConfig.zero
      (fun r v => { r with G2APIVersion := v }) c) (fun c =>
  ovSeq (ovStr env "VPC_API_TIMEOUT" VPCProviderConfig.zero
      (fun r v => { r with VPCTimeout := v }) c) (fun c =>
  ovSeq (ovInt env "VPC_RETRY_ATTEMPT" VPCProviderConfig.zero
      (fun r n => { r with MaxRetryAttempt := n }) c) (fun c =>
  ovInt env "VPC_RETRY_INTERVAL" VPCProviderConfig.zero
      (fun r n => { r with MaxRetryGap := n }) c))))))))

/-- Overlay pass over `IKSConfig` (tags at config.go lines 189-190). -/
def overlayIKS (env : Env) (c : Option IKSConfig) :
    Option IKSConfig × Option ConfErr :=
  ovSeq (ovBool env "IKS_ENABLED" IKSConfig.zero
      (fun r b => { r with Enabled := b }) c) (fun c =>
  ovStr env "IKS_BLOCK_PROVIDER_NAME" IKSConfig.zero
      (fun r v => { r with IKSBlockProviderName := v }) c)

/-- Model of `envconfig.Process "" conf` (the call at config.go line 98):
sub-records in struct-declaration order (`Server`, `Bluemix`, `Softlayer`,
`VPC`, `IKS`, `API`); `BluemixConfig` and `APIConfig` carry no `envconfig`
tag and are not touched. -/
def envconfigProcess (env : Env) (c : Config) : Config × Option ConfErr :=
  match overlayServer env c.Server with
  | (s, some e) => ({ c with Server := s }, some e)
  | (s, none) =>
    match overlaySoftlayer env c.Softlayer with
    | (sl, some e) => ({ c with Server := s, Softlayer := sl }, some e)
    | (sl, none) =>
      match overlayVPC env c.VPC with
      | (v, some e) => ({ c with Server := s, Softlayer := sl, VPC := v }, some e)
      | (v, none) =>
        match overlayIKS env c.IKS with
        | (i, e) =>
          ({ c with Server := s, Softlayer := sl, VPC := v, IKS := i }, e)

/-- Names of all environment variables carried by an `envconfig` tag in
config.go, in struct-declaration order. -/
def taggedEnvVars : List String :=
  ["DEBUG_TRACE",
   "SOFTLAYER_BLOCK_ENABLED", "SOFTLAYER_BLOCK_PROVIDER_NAME",
   "SOFTLAYER_FILE_ENABLED", "SOFTLAYER_FILE_PROVIDER_NAME",
   "SOFTLAYER_API_TIMEOUT", "SOFTLAYER_VOL_PROVISION_TIMEOUT",
   "SOFTLAYER_API_RETRY_INTERVAL",
   "VPC_ENABLED", "VPC_TYPE_ENABLED", "VPC_API_GENERATION", "VPC_API_VERSION",
   "G2_VPC_API_GENERATION", "G2_VPC_API_VERSION", "VPC_API_TIMEOUT",
   "VPC_RETRY_ATTEMPT", "VPC_RETRY_INTERVAL",
   "IKS_ENABLED", "IKS_BLOCK_PROVIDER_NAME"]

/-- Embedding of `ParseConfig` (config.go lines 92-103): decode the file into
the record (error only logged), then overlay the environment onto the same
record; the variable `err` is reassigned by the second pass, so the value
returned is the overlay pass's error — `nil` when the overlay succeeds, even
if the decode failed. -/
def ParseConfig (fs : FS) (env : Env) (filePath : String) (conf : Config) :
    Config × Option ConfErr :=
  let afterDecode := decodeFile fs filePath conf
  let afterOverlay := envconfigProcess env afterDecode.1
  (afterOverlay.1, afterOverlay.2)

/-- Path `ReadConfig` resolves before decoding (config.go lines 55-57): the
explicit argument when nonempty, else `GetDefaultConfPath`. -/
def ReadConfigResolvedPath (env : Env) (confPath : String) : String :=
  if confPath = "" then GetDefaultConfPath env else confPath

/-- Embedding of `ReadConfig` (config.go lines 53-66): resolve the path, build
the initial record with the IKS sub-record pre-allocated, run `ParseConfig` on
it and return `&conf` (hence `some _`, never `none`) together with the error. -/
def ReadConfig (fs : FS) (env : Env) (confPath : String) :
    Option Config × Option ConfErr :=
  let path := ReadConfigResolvedPath env confPath
  let r := ParseConfig fs env path initialConfig
  (some r.1, r.2)

/-!
Concrete environments and filesystems used to evaluate the embedded loader.
-/

/-- Environment with no variable set. -/
def envEmpty : Env := fun _ => none

/-- Environment where only VPC_API_GENERATION is set, to a non-numeric string. -/
def envBadGen : Env :=
  fun k => if k = "VPC_API_GENERATION" then some "notanumber" else none

/-- Environment where only DEBUG_TRACE is set, to "true". -/
def envDebugTrue : Env :=
  fun k => if k = "DEBUG_TRACE" then some "true" else none

/-- Environment with SECRET_CONFIG_PATH=/tmp/cfg and GOPATH=/go. -/
def envSecretAndGo : Env := fun k =>
  if k = "SECRET_CONFIG_PATH" then some "/tmp/cfg"
  else if k = "GOPATH" then some "/go" else none

/-- Environment with SECRET_CONFIG_PATH=/tmp/cfg and GOPATH unset. -/
def envSecretOnly : Env :=
  fun k => if k = "SECRET_CONFIG_PATH" then some "/tmp/cfg" else none

/-- Filesystem on which every path names a nonexistent file. -/
def fsNoFile : FS := fun _ => ⟨TomlData.empty, some "no such file"⟩

/-- Filesystem on which every path holds a file whose only content is a
[Server] section setting debug_trace = false. -/
def fsDebugFalse : FS :=
  fun _ => ⟨{ TomlData.empty with Server := some ⟨some false⟩ }, none⟩

/-- Filesystem whose only existing file is /tmp/cfg/libconfig.toml, a file
setting debug_trace = true. -/
def fsSecretOnlyFile : FS := fun p =>
  if p = "/tmp/cfg/libconfig.toml" then
    ⟨{ TomlData.empty with Server := some ⟨some true⟩ }, none⟩
  else ⟨TomlData.empty, some "no such file"⟩

/-!
Helper lemmas about the overlay pass, shared between the claims.
-/

/-- Overlay of a single Bool field keeps the sub-record allocated. -/
theorem ovBool_fst_isSome {R : Type} (env : Env) (key : String) (zero : R)
    (put : R → Bool → R) (cur : Option R) (h : cur.isSome = true) :
    ((ovBool env key zero put cur).1).isSome = true := by
  rcases hk : env key with _ | v
  · simp [ovBool, hk, h]
  · rcases hb : parseBool v with _ | b
    · simp [ovBool, hk, hb, h]
    · simp [ovBool, hk, hb]

/-- Overlay of a single String field keeps the sub-record allocated. -/
theorem ovStr_fst_isSome {R : Type} (env : Env) (key : String) (zero : R)
    (put : R → String → R) (cur : Option R) (h : cur.isSome = true) :
    ((ovStr env key zero put cur).1).isSome = true := by
  rcases hk : env key with _ | v
  · simp [ovStr, hk, h]
  · simp [ovStr, hk]

/-- Sequencing preserves allocation of the sub-record. -/
theorem ovSeq_fst_isSome {R : Type} (step : Option R × Option ConfErr)
    (k : Option R → Option R × Option ConfErr)
    (h1 : step.1.isSome = true)
    (h2 : ∀ c, c.isSome = true → ((k c).1).isSome = true) :
    ((ovSeq step k).1).isSome = true := by
  rcases step with ⟨c, e⟩
  cases e with
  | none => exact h2 c h1
  | some e => exact h1

/-- The IKS overlay pass keeps an allocated IKS sub-record allocated. -/
theorem overlayIKS_fst_isSome (env : Env) (c : Option IKSConfig)
    (h : c.isSome = true) : ((overlayIKS env c).1).isSome = true := by
  unfold overlayIKS
  exact ovSeq_fst_isSome _ _ (ovBool_fst_isSome _ _ _ _ _ h)
    (fun c2 h2 => ovStr_fst_isSome _ _ _ _ _ h2)

/-- The file-decode pass keeps an allocated IKS sub-record allocated. -/
theorem applyTo_IKS_isSome (t : TomlData) (c : Config)
    (h : c.IKS.isSome = true) : ((t.applyTo c)).IKS.isSome = true := by
  rcases ht : t.IKS with _ | ti
  · simpa [TomlData.applyTo, ht] using h
  · simp [TomlData.applyTo, ht]

/-- Shape of the full overlay pass: the `Bluemix` and `API` sub-records (no
`envconfig` tag anywhere) are never touched, and the resulting `Server`
sub-record is exactly the output of the `Server` overlay. -/
theorem envconfigProcess_parts (env : Env) (c : Config) :
    ((envconfigProcess env c).1).Bluemix = c.Bluemix ∧
    ((envconfigProcess env c).1).API = c.API ∧
    ((envconfigProcess env c).1).Server = (overlayServer env c.Server).1 := by
  unfold envconfigProcess
  split
  · rename_i s e heq
    exact ⟨rfl, rfl, by rw [heq]⟩
  · rename_i s heq
    split
    · exact ⟨rfl, rfl, by rw [heq]⟩
    · split
      · exact ⟨rfl, rfl, by rw [heq]⟩
      · split
        exact ⟨rfl, rfl, by rw [heq]⟩

/-- The full overlay pass keeps an allocated IKS sub-record allocated. -/
theorem envconfigProcess_IKS_isSome (env : Env) (c : Config)
    (h : c.IKS.isSome = true) :
    ((envconfigProcess env c).1).IKS.isSome = true := by
  unfold envconfigProcess
  split
  · exact h
  · split
    · exact h
    · split
      · exact h
      · split
        rename_i v4 i e heq
        have hik := overlayIKS_fst_isSome env c.IKS h
        rw [heq] at hik
        exact hik

/-- With none of the tagged environment variables set, the overlay pass is a
no-op returning no error. -/
theorem envconfigProcess_skip (env : Env) (c : Config)
    (h : ∀ k ∈ taggedEnvVars, env k = none) :
    envconfigProcess env c = (c, none) := by
  have h1 : env "DEBUG_TRACE" = none := h _ (by decide)
  have h2 : env "SOFTLAYER_BLOCK_ENABLED" = none := h _ (by decide)
  have h3 : env "SOFTLAYER_BLOCK_PROVIDER_NAME" = none := h _ (by decide)
  have h4 : env "SOFTLAYER_FILE_ENABLED" = none := h _ (by decide)
  have h5 : env "SOFTLAYER_FILE_PROVIDER_NAME" = none := h _ (by decide)
  have h6 : env "SOFTLAYER_API_TIMEOUT" = none := h _ (by decide)
  have h7 : env "SOFTLAYER_VOL_PROVISION_TIMEOUT" = none := h _ (by decide)
  have h8 : env "SOFTLAYER_API_RETRY_INTERVAL" = none := h _ (by decide)
  have h9 : env "VPC_ENABLED" = none := h _ (by decide)
  have h10 : env "VPC_TYPE_ENABLED" = none := h _ (by decide)
  have h11 : env "VPC_API_GENERATION" = none := h _ (by decide)
  have h12 : env "VPC_API_VERSION" = none := h _ (by decide)
  have h13 : env "G2_VPC_API_GENERATION" = none := h _ (by decide)
  have h14 : env "G2_VPC_API_VERSION" = none := h _ (by decide)
  have h15 : env "VPC_API_TIMEOUT" = none := h _ (by decide)
  have h16 : env "VPC_RETRY_ATTEMPT" = none := h _ (by decide)
  have h17 : env "VPC_RETRY_INTERVAL" = none := h _ (by decide)
  have h18 : env "IKS_ENABLED" = none := h _ (by decide)
  have h19 : env "IKS_BLOCK_PROVIDER_NAME" = none := h _ (by decide)
  simp only [envconfigProcess, overlayServer, overlaySoftlayer, overlayVPC,
    overlayIKS, ovBool, ovStr, ovInt, ovSeq, h1, h2, h3, h4, h5, h6, h7, h8,
    h9, h10, h11, h12, h13, h14, h15, h16, h17, h18, h19]

/-- With only VPC_API_GENERATION set, to a value `strconv.Atoi` rejects, the
overlay pass changes nothing and reports the conversion error for that
variable. -/
theorem envconfigProcess_genFail (env : Env) (c : Config) (s : String)
    (hgen : env "VPC_API_GENERATION" = some s) (hbad : parseInt s = none)
    (hrest : ∀ k ∈ taggedEnvVars, k ≠ "VPC_API_GENERATION" → env k = none) :
    envconfigProcess env c = (c, some (ConfErr.overlayErr "VPC_API_GENERATION")) := by
  have h1 : env "DEBUG_TRACE" = none := hrest _ (by decide) (by decide)
  have h2 : env "SOFTLAYER_BLOCK_ENABLED" = none := hrest _ (by decide) (by decide)
  have h3 : env "SOFTLAYER_BLOCK_PROVIDER_NAME" = none := hrest _ (by decide) (by decide)
  have h4 : env "SOFTLAYER_FILE_ENABLED" = none := hrest _ (by decide) (by decide)
  have h5 : env "SOFTLAYER_FILE_PROVIDER_NAME" = none := hrest _ (by decide) (by decide)
  have h6 : env "SOFTLAYER_API_TIMEOUT" = none := hrest _ (by decide) (by decide)
  have h7 : env "SOFTLAYER_VOL_PROVISION_TIMEOUT" = none := hrest _ (by decide) (by decide)
  have h8 : env "SOFTLAYER_API_RETRY_INTERVAL" = none := hrest _ (by decide) (by decide)
  have h9 : env "VPC_ENABLED" = none := hrest _ (by decide) (by decide)
  have h10 : env "VPC_TYPE_ENABLED" = none := hrest _ (by decide) (by decide)
  simp only [envconfigProcess, overlayServer, overlaySoftlayer, overlayVPC,
    ovBool, ovStr, ovInt, ovSeq, h1, h2, h3, h4, h5, h6, h7, h8, h9, h10,
    hgen, hbad]

/-- Decoding an empty parsed file changes nothing. -/
theorem TomlData.empty_applyTo (c : Config) : TomlData.empty.applyTo c = c := rfl

/-- Decoding a nonexistent file leaves the record unchanged and produces the
decode error. -/
theorem decodeFile_missing (fs : FS) (p : String) (conf : Config) (msg : String)
    (hfile : fs p = ⟨TomlData.empty, some msg⟩) :
    decodeFile fs p conf = (conf, some (ConfErr.decodeErr msg)) := by
  unfold decodeFile
  rw [hfile]
  rfl

/-!
Claim theorems.
-/

/-- C1 counterexample: a load call in which both the file-decode step and the
environment-overlay step fail (nonexistent file, VPC_API_GENERATION set to
"notanumber"), where the error returned by `ParseConfig` is the overlay
error, not the file-decode error the claim promises. -/
theorem claim_C1_counterexample :
    (decodeFile fsNoFile "/nonexistent" initialConfig).2 =
      some (ConfErr.decodeErr "no such file") ∧
    (envconfigProcess envBadGen
      (decodeFile fsNoFile "/nonexistent" initialConfig).1).2 =
      some (ConfErr.overlayErr "VPC_API_GENERATION") ∧
    (ParseConfig fsNoFile envBadGen "/nonexistent" initialConfig).2 ≠
      some (ConfErr.decodeErr "no such file") ∧
    (ParseConfig fsNoFile envBadGen "/nonexistent" initialConfig).2 =
      some (ConfErr.overlayErr "VPC_API_GENERATION") := by
  decide

/-- C1 amended: for every load call in which both the file-decode step and
the environment-overlay step fail, the error returned by `ParseConfig` is the
environment-overlay error — the `err` variable is reassigned by the second
pass, so the file-decode error is logged but discarded. -/
theorem claim_C1_amended (fs : FS) (env : Env) (path : String) (conf : Config)
    (e1 e2 : ConfErr)
    (_hdec : (decodeFile fs path conf).2 = some e1)
    (hov : (envconfigProcess env (decodeFile fs path conf).1).2 = some e2) :
    (ParseConfig fs env path conf).2 = some e2 := by
  simpa [ParseConfig] using hov

/-- C1 witness: the amended theorem applied to the concrete failing load. -/
theorem claim_C1_witness :
    (decodeFile fsNoFile "/nonexistent" initialConfig).2 =
      some (ConfErr.decodeErr "no such file") ∧
    (ParseConfig fsNoFile envBadGen "/nonexistent" initialConfig).2 =
      some (ConfErr.overlayErr "VPC_API_GENERATION") :=
  ⟨by decide,
   claim_C1_amended fsNoFile envBadGen "/nonexistent" initialConfig
     (ConfErr.decodeErr "no such file") (ConfErr.overlayErr "VPC_API_GENERATION")
     (by decide) (by decide)⟩

/-- C2 counterexample: a load call on a nonexistent file where the
environment overlay succeeds, so `ReadConfig` returns a nil error — against
the claim that a non-nil decode error is returned regardless of the overlay
outcome. -/
theorem claim_C2_counterexample :
    (decodeFile fsNoFile (ReadConfigResolvedPath envEmpty "/nonexistent")
      initialConfig).2 = some (ConfErr.decodeErr "no such file") ∧
    (ReadConfig fsNoFile envEmpty "/nonexistent").2 = none := by
  decide

/-- C2 amended: for every load call whose path names a nonexistent (or
unreadable or malformed) file, `ReadConfig` returns a non-absent
Configuration whose IKS sub-record is pre-initialized, together with the
error of the environment-overlay step: nil when the overlay succeeds (the
decode error is logged but not returned), and the overlay error otherwise. -/
theorem claim_C2_amended (fs : FS) (env : Env) (confPath : String) (msg : String)
    (hfile : fs (ReadConfigResolvedPath env confPath) = ⟨TomlData.empty, some msg⟩) :
    ReadConfig fs env confPath =
      (some (envconfigProcess env initialConfig).1,
       (envconfigProcess env initialConfig).2) ∧
    ((ReadConfig fs env confPath).1.getD Config.zero).IKS.isSome = true := by
  have hd := decodeFile_missing fs (ReadConfigResolvedPath env confPath)
    initialConfig msg hfile
  constructor
  · simp only [ReadConfig, ParseConfig, hd]
  · have h2 := envconfigProcess_IKS_isSome env initialConfig rfl
    simp only [ReadConfig, ParseConfig, hd]
    simpa using h2

/-- C2 witness: the amended theorem applied to a concrete nonexistent-file
load in which the overlay itself fails. -/
theorem claim_C2_witness :
    (fsNoFile (ReadConfigResolvedPath envBadGen "/nonexistent") =
      ⟨TomlData.empty, some "no such file"⟩) ∧
    (ReadConfig fsNoFile envBadGen "/nonexistent" =
      (some (envconfigProcess envBadGen initialConfig).1,
       (envconfigProcess envBadGen initialConfig).2) ∧
     ((ReadConfig fsNoFile envBadGen "/nonexistent").1.getD Config.zero).IKS.isSome
       = true) :=
  ⟨by decide,
   claim_C2_amended fsNoFile envBadGen "/nonexistent" "no such file" (by decide)⟩

/-- C3 counterexample: with SECRET_CONFIG_PATH=/tmp/cfg and GOPATH=/go set,
`ReadConfig` with an empty path resolves the GOPATH-derived default, not
/tmp/cfg/libconfig.toml; a file present only at /tmp/cfg/libconfig.toml
(setting debug_trace = true) is ignored by the load. -/
theorem claim_C3_counterexample :
    ReadConfigResolvedPath envSecretAndGo "" =
      "/go/src/github.com/IBM/ibmcloud-volume-interface/etc/libconfig.toml" ∧
    ReadConfigResolvedPath envSecretAndGo "" ≠
      filepathJoin ["/tmp/cfg", "libconfig.toml"] ∧
    GetConfPath envSecretAndGo = "/tmp/cfg/libconfig.toml" ∧
    ReadConfig fsSecretOnlyFile envSecretAndGo "" = (some initialConfig, none) := by
  decide

/-- C3 amended: for every call to `ReadConfig` with an empty explicit path,
the configuration file that is decoded is `GetDefaultConfPath` (the
GOPATH-derived default); the SECRET_CONFIG_PATH override is consulted only by
`GetConfPath`/`GetConfPathDir`, which `ReadConfig` does not call. -/
theorem claim_C3_amended (fs : FS) (env : Env) :
    ReadConfig fs env "" =
      (some (ParseConfig fs env (GetDefaultConfPath env) initialConfig).1,
       (ParseConfig fs env (GetDefaultConfPath env) initialConfig).2) ∧
    ReadConfigResolvedPath env "" = GetDefaultConfPath env := by
  constructor
  · rfl
  · rfl

/-- C4: for every load call, the environment overlay runs after the file
decode (the result of `ParseConfig` is the overlay pass applied to the
decoded record); a field with an environment tag whose variable is set is
overwritten — with a file setting debug_trace = false and environment
DEBUG_TRACE=true, the merged DebugTrace field is true; the untagged `Bluemix`
and `API` sub-records are untouched by the overlay, hence determined by the
file alone (or left at their zero value). -/
theorem claim_C4 :
    (∀ (fs : FS) (env : Env) (path : String) (conf : Config),
      ParseConfig fs env path conf =
        ((envconfigProcess env (decodeFile fs path conf).1).1,
         (envconfigProcess env (decodeFile fs path conf).1).2)) ∧
    (∀ (fs : FS) (env : Env) (path : String) (conf : Config),
      ((decodeFile fs path conf).1).Server = some ⟨false⟩ →
      env "DEBUG_TRACE" = some "true" →
      ((ParseConfig fs env path conf).1).Server = some ⟨true⟩) ∧
    (∀ (env : Env) (c : Config),
      ((envconfigProcess env c).1).Bluemix = c.Bluemix ∧
      ((envconfigProcess env c).1).API = c.API) := by
  refine ⟨fun fs env path conf => rfl, ?_,
    fun env c => ⟨(envconfigProcess_parts env c).1, (envconfigProcess_parts env c).2.1⟩⟩
  intro fs env path conf hfile henv
  have hs := (envconfigProcess_parts env (decodeFile fs path conf).1).2.2
  have hp : (ParseConfig fs env path conf).1 =
      (envconfigProcess env (decodeFile fs path conf).1).1 := rfl
  have hpb : parseBool "true" = some true := by decide
  rw [hp, hs, hfile]
  simp [overlayServer, ovBool, henv, hpb, ServerConfig.zero]

/-- C4 witness: the override conjunct applied to a concrete file setting
debug_trace = false and environment DEBUG_TRACE=true. -/
theorem claim_C4_witness :
    ((ParseConfig fsDebugFalse envDebugTrue "/x" initialConfig).1).Server =
      some ⟨true⟩ :=
  claim_C4.2.1 fsDebugFalse envDebugTrue "/x" initialConfig (by decide) (by decide)

/-- C5: for every load call in which the file decode succeeds but the
environment overlay fails because VPC_API_GENERATION is set to a string
`strconv.Atoi` rejects (all other tagged variables unset), `ParseConfig`
returns that overlay error together with the record exactly as decoded from
the file — every successfully decoded field intact. -/
theorem claim_C5 (fs : FS) (env : Env) (path : String) (conf : Config) (s : String)
    (_hdec : (fs path).errMsg = none)
    (hgen : env "VPC_API_GENERATION" = some s)
    (hbad : parseInt s = none)
    (hrest : ∀ k ∈ taggedEnvVars, k ≠ "VPC_API_GENERATION" → env k = none) :
    ParseConfig fs env path conf =
      ((fs path).data.applyTo conf,
       some (ConfErr.overlayErr "VPC_API_GENERATION")) := by
  have hp := envconfigProcess_genFail env ((fs path).data.applyTo conf) s hgen hbad hrest
  simp only [ParseConfig, decodeFile, hp]

/-- C5 witness: the theorem applied to a concrete file (debug_trace = false,
decoded cleanly) and the environment VPC_API_GENERATION=notanumber. -/
theorem claim_C5_witness :
    (fsDebugFalse "/x").errMsg = none ∧
    parseInt "notanumber" = none ∧
    ParseConfig fsDebugFalse envBadGen "/x" initialConfig =
      ((fsDebugFalse "/x").data.applyTo initialConfig,
       some (ConfErr.overlayErr "VPC_API_GENERATION")) :=
  ⟨by decide, by decide,
   claim_C5 fsDebugFalse envBadGen "/x" initialConfig "notanumber"
     (by decide) (by decide) (by decide) (by decide)⟩

/-- C6: for every invocation of `ReadConfig`, with any path and any
file/environment state, the returned Configuration reference is non-absent
(never nil), including every case in which a non-nil error is also
returned. -/
theorem claim_C6 (fs : FS) (env : Env) (confPath : String) :
    (ReadConfig fs env confPath).1.isSome = true := rfl

/-- C7: for every invocation of `ReadConfig`, with any path and any
file/environment state (including all error outcomes), the IKS sub-record of
the returned Configuration is non-absent (never nil): it is pre-allocated
before the decode and overlay passes, and neither pass removes it. -/
theorem claim_C7 (fs : FS) (env : Env) (confPath : String) :
    ((ReadConfig fs env confPath).1.getD Config.zero).IKS.isSome = true := by
  have h1 : initialConfig.IKS.isSome = true := rfl
  have h2 := applyTo_IKS_isSome (fs (ReadConfigResolvedPath env confPath)).data
    initialConfig h1
  have h3 := envconfigProcess_IKS_isSome env
    ((fs (ReadConfigResolvedPath env confPath)).data.applyTo initialConfig) h2
  simpa [ReadConfig, ParseConfig, decodeFile] using h3

/-- C8: for every environment in which SECRET_CONFIG_PATH is set to /tmp/cfg,
`GetConfPath` returns /tmp/cfg/libconfig.toml, whatever the value (set or
unset) of GOPATH. -/
theorem claim_C8 (env : Env)
    (h : env "SECRET_CONFIG_PATH" = some "/tmp/cfg") :
    GetConfPath env = "/tmp/cfg/libconfig.toml" := by
  have hg : getEnv env "SECRET_CONFIG_PATH" = "/tmp/cfg" := by
    unfold getEnv
    rw [show upperString "SECRET_CONFIG_PATH" = "SECRET_CONFIG_PATH" from by decide, h]
    rfl
  unfold GetConfPath
  rw [hg]
  rw [if_pos (by decide : ("/tmp/cfg" : String) ≠ "")]
  decide

/-- C8 witness: the theorem applied once with GOPATH=/go and once with GOPATH
unset. -/
theorem claim_C8_witness :
    GetConfPath envSecretAndGo = "/tmp/cfg/libconfig.toml" ∧
    GetConfPath envSecretOnly = "/tmp/cfg/libconfig.toml" :=
  ⟨claim_C8 envSecretAndGo (by decide), claim_C8 envSecretOnly (by decide)⟩

/-- C9: for every load call where the resolved path names no file and none of
the environment-tagged variables are set, `ReadConfig` returns the record
whose IKS sub-record is the pre-allocated empty one and whose other
sub-records are nil (zero-valued), with no error. -/
theorem claim_C9 (fs : FS) (env : Env) (confPath : String) (msg : String)
    (hfile : fs (ReadConfigResolvedPath env confPath) = ⟨TomlData.empty, some msg⟩)
    (henv : ∀ k ∈ taggedEnvVars, env k = none) :
    ReadConfig fs env confPath = (some initialConfig, none) ∧
    initialConfig.IKS = some IKSConfig.zero ∧
    initialConfig.Server = none ∧ initialConfig.Bluemix = none ∧
    initialConfig.Softlayer = none ∧ initialConfig.VPC = none ∧
    initialConfig.API = none := by
  refine ⟨?_, rfl, rfl, rfl, rfl, rfl, rfl⟩
  have hd := decodeFile_missing fs (ReadConfigResolvedPath env confPath)
    initialConfig msg hfile
  have hp := envconfigProcess_skip env initialConfig henv
  simp only [ReadConfig, ParseConfig, hd, hp]

/-- C9 witness: the theorem applied to a concrete nonexistent path and the
empty environment. -/
theorem claim_C9_witness :
    (fsNoFile (ReadConfigResolvedPath envEmpty "/nonexistent") =
      ⟨TomlData.empty, some "no such file"⟩) ∧
    ReadConfig fsNoFile envEmpty "/nonexistent" = (some initialConfig, none) :=
  ⟨by decide,
   (claim_C9 fsNoFile envEmpty "/nonexistent" "no such file" (by decide)
     (by decide)).1⟩

/-- C10: for every environment in which GOPATH is unset or empty,
`GetEtcPath` returns the relative path
src/github.com/IBM/ibmcloud-volume-interface/etc (the empty workspace-root
component is dropped by the join) and `GetDefaultConfPath` appends
libconfig.toml to it; the result does not start with the separator, i.e. it
is relative, and path resolution is total (no error value exists). -/
theorem claim_C10 (env : Env)
    (h : env "GOPATH" = none ∨ env "GOPATH" = some "") :
    GetEtcPath env = "src/github.com/IBM/ibmcloud-volume-interface/etc" ∧
    GetDefaultConfPath env =
      "src/github.com/IBM/ibmcloud-volume-interface/etc/libconfig.toml" ∧
    (GetEtcPath env).data.head? ≠ some '/' := by
  have hg : getEnv env "GOPATH" = "" := by
    unfold getEnv
    rw [show upperString "GOPATH" = "GOPATH" from by decide]
    rcases h with h | h <;> rw [h] <;> rfl
  have hgo : GetGoPath env = "" := by
    unfold GetGoPath
    rw [hg]
    decide
  have he : GetEtcPath env = "src/github.com/IBM/ibmcloud-volume-interface/etc" := by
    unfold GetEtcPath
    rw [hgo]
    decide
  refine ⟨he, ?_, ?_⟩
  · unfold GetDefaultConfPath
    rw [he]
    decide
  · rw [he]
    decide

/-- C10 witness: the theorem applied to the empty environment (GOPATH
unset). -/
theorem claim_C10_witness :
    GetEtcPath envEmpty = "src/github.com/IBM/ibmcloud-volume-interface/etc" ∧
    GetDefaultConfPath envEmpty =
      "src/github.com/IBM/ibmcloud-volume-interface/etc/libconfig.toml" ∧
    (GetEtcPath envEmpty).data.head? ≠ some '/' :=
  claim_C10 envEmpty (Or.inl rfl)

end ConfigGo
